import Mathlib

/-!
Shallow embedding of the order-fulfillment and provider-reconciliation core of
the halo-panel-hub SMM reseller panel:

* `forward-order` edge function (submits a local order to a provider's `add`
  action and records the external order id),
* `sync-order-status` edge function (the reconciliation sweep polling the
  provider's `status` action),
* `sync-rates` edge function (the per-provider rate synchronization sweep),
* `importSelectedServices` in the admin API-providers page (bulk catalog
  import).

JavaScript dynamic values that cross these code paths (JSON fields that may be
strings, numbers, booleans or null) are modelled by `JsVal`, together with the
JS coercions the source relies on: truthiness tests, `toString`, `String(x)`,
`parseInt(x, 10)` and `parseFloat(String(x))`.  Numbers are embedded as `Int`
(order ids, counts) and `ℚ` (rates/prices); timestamps (`updated_at`) and the
database/network transport are outside the model: a database write is
represented by the updated row (writes are assumed to succeed), and each
provider HTTP call by an explicit outcome parameter.
-/

/-- A JSON scalar value as it appears in provider responses.  Numeric fields
that the source feeds through `toString`/`parseInt` (order ids, counts) are
integers in practice, so `num` carries an `Int`. -/
inductive JsVal where
  | null
  | bool (b : Bool)
  | num (n : Int)
  | str (s : String)
deriving DecidableEq, Repr

namespace JsVal

/-- JS truthiness of a value: `null`, `false`, `0` and `""` are falsy. -/
def truthy : JsVal → Bool
  | .null => false
  | .bool b => b
  | .num n => n != 0
  | .str s => s ≠ ""

/-- JS `x?.toString()`: `none` when `x` is null/undefined (optional chaining
short-circuits), otherwise the usual string conversion. -/
def toStr : JsVal → Option String
  | .null => none
  | .bool b => some (if b then "true" else "false")
  | .num n => some (toString n)
  | .str s => some s

/-- JS `String(x)` (no optional chaining: null renders as `"null"`). -/
def strOf : JsVal → String
  | .null => "null"
  | .bool b => if b then "true" else "false"
  | .num n => toString n
  | .str s => s

end JsVal

/-- JS `s.toLowerCase()` on the ASCII status strings the reconciler compares
against: lowercase each character. -/
def toLowerJs (s : String) : String :=
  ⟨s.data.map Char.toLower⟩

/-- Truthiness of a JS `string | null | undefined` value (used by the source's
`!service?.api_service_id` style guards): absent/null and `""` are falsy. -/
def optStrTruthy : Option String → Bool
  | none => false
  | some s => s ≠ ""

/-- Characters JS number parsing skips as leading whitespace. -/
def jsIsSpace (c : Char) : Bool :=
  c = ' ' || c = '\t' || c = '\n' || c = '\r'

/-- Digits of a decimal literal folded to a natural number. -/
def digitsToNat (ds : List Char) : Nat :=
  ds.foldl (fun a c => a * 10 + (c.toNat - '0'.toNat)) 0

/-- JS `parseInt(s, 10)`: skip leading whitespace, optional sign, then the
longest prefix of decimal digits; `none` models `NaN` (no digits). -/
def parseIntJs (s : String) : Option Int :=
  let cs := s.toList.dropWhile jsIsSpace
  let sign : Int := if cs.head? = some '-' then -1 else 1
  let cs := if cs.head? = some '-' || cs.head? = some '+' then cs.tail else cs
  let ds := cs.takeWhile Char.isDigit
  if ds.isEmpty then none else some (sign * (digitsToNat ds : Nat))

/-- JS `parseFloat(s)` restricted to plain decimal literals
(`[ws][sign]digits[.digits]`), the shape SMM providers emit for rates;
`none` models `NaN`. -/
def parseFloatJs (s : String) : Option ℚ :=
  let cs := s.toList.dropWhile jsIsSpace
  let sign : ℚ := if cs.head? = some '-' then -1 else 1
  let cs := if cs.head? = some '-' || cs.head? = some '+' then cs.tail else cs
  let intDs := cs.takeWhile Char.isDigit
  let rest := cs.drop intDs.length
  let fracDs := if rest.head? = some '.' then rest.tail.takeWhile Char.isDigit else []
  if intDs.isEmpty && fracDs.isEmpty then none
  else some (sign * ((digitsToNat intDs : ℚ) +
    (digitsToNat fracDs : ℚ) / ((10 : ℚ) ^ fracDs.length)))

section ForwardOrder
/-!
Embedding of `forward-order` (src/unnamed/part_015), from the point where the
order row and its joined service have been loaded and the ownership check has
passed.  The earlier guards (missing auth header, unknown order id, foreign
order) only reject the request without touching any state and are outside the
claims' scope.
-/

/-- The joined `services(id, name, api_service_id, api_provider_id)` columns
the handler reads.  `none` is SQL NULL. -/
structure ServiceJoin where
  api_service_id : Option String
  api_provider_id : Option String
deriving DecidableEq, Repr

/-- The order columns `forward-order` reads and writes. -/
structure OrderRow where
  status : String
  external_order_id : Option String
  link : String
  quantity : Int
deriving DecidableEq, Repr

/-- Provider `add` response as a JSON object: each field is `none` when absent
from the object. -/
structure AddResponse where
  error : Option JsVal := none
  order : Option JsVal := none
  id : Option JsVal := none
deriving DecidableEq, Repr

/-- Outcome of the `fetch` of the provider's `add` endpoint. -/
inductive AddFetch where
  /-- `fetch`/`text()` threw (network failure); caught by the outer handler. -/
  | thrown
  /-- Response body was not parseable JSON (`JSON.parse` threw). -/
  | parseFail
  /-- Response body parsed to the given JSON object. -/
  | parsed (r : AddResponse)
deriving DecidableEq, Repr

/-- The JSON body `forward-order` answers with, one constructor per `return`
site after the order is loaded. -/
inductive FwdBody where
  /-- `{success:true, forwarded:false}` — service has no API integration. -/
  | skipNoApi
  /-- `{success:false, error:'API provider not found or inactive'}`. -/
  | providerUnavailable
  /-- `{success:false, error:'Invalid response from API provider'}`. -/
  | invalidResponse
  /-- `{success:false, error: e}` — provider-reported error, echoed back. -/
  | apiError (e : JsVal)
  /-- `{success:true, forwarded:true, externalOrderId: ext}`. -/
  | forwardedOk (ext : Option String)
  /-- Outer `catch`: `{error: message}` for a thrown transport error. -/
  | thrownError
deriving DecidableEq, Repr

/-- Result of one `forward-order` invocation: whether the provider HTTP call
was issued, the order row after any update, and the HTTP response. -/
structure FwdResult where
  httpCalled : Bool
  newOrder : OrderRow
  httpStatus : Nat
  body : FwdBody
deriving DecidableEq, Repr

/-- `apiResponse.order?.toString() || apiResponse.id?.toString() || null`:
first truthy (non-empty) string conversion of `order` then `id`, else null. -/
def resolveExternalOrderId (r : AddResponse) : Option String :=
  let fromOrder := (r.order.bind JsVal.toStr).filter (· ≠ "")
  let fromId := (r.id.bind JsVal.toStr).filter (· ≠ "")
  fromOrder.orElse (fun _ => fromId)

/-- Success path of `forward-order` (no truthy `error` in the response):
extract the external order id and update the row iff one resolved. -/
def forwardSuccess (o : OrderRow) (r : AddResponse) : FwdResult :=
  match resolveExternalOrderId r with
  | some ext =>
    ⟨true, { o with status := "processing", external_order_id := some ext },
      200, .forwardedOk (some ext)⟩
  | none => ⟨true, o, 200, .forwardedOk none⟩

/-- The `forward-order` handler after the order row `o` with joined service
`svc` is loaded: `provider` is the result of the `api_providers` lookup
(filtered by `is_active = true`, so `none` covers both missing and inactive),
and `fetch` the outcome of the provider `add` call. -/
def forwardOrder (o : OrderRow) (svc : Option ServiceJoin)
    (provider : Option String) (fetch : AddFetch) : FwdResult :=
  -- `if (!service?.api_service_id || !service?.api_provider_id)`
  if !(optStrTruthy (svc.bind (·.api_service_id))) ||
     !(optStrTruthy (svc.bind (·.api_provider_id))) then
    ⟨false, o, 200, .skipNoApi⟩
  else
    match provider with
    | none => ⟨false, o, 400, .providerUnavailable⟩
    | some _ =>
      match fetch with
      | .thrown => ⟨true, o, 500, .thrownError⟩
      | .parseFail => ⟨true, o, 500, .invalidResponse⟩
      | .parsed r =>
        -- `if (apiResponse.error)` — truthiness test on the field
        match r.error with
        | some e =>
          if e.truthy then
            ⟨true, { o with status := "cancelled" }, 400, .apiError e⟩
          else
            forwardSuccess o r
        | none => forwardSuccess o r

end ForwardOrder

section SyncOrderStatus
/-!
Embedding of `sync-order-status` (src/unnamed/part_016): the reconciliation
sweep over all orders with a non-null `external_order_id` and status in
`{pending, processing}`.  Each loop iteration is `stepEntry`; the whole `for`
loop with its `syncedCount`/`errorCount` accumulators is `syncSweep`.  Database
updates are modelled as succeeding (the `updateError` branch is not a provider
failure and no claim depends on it).
-/

/-- The order columns the sweep reads and writes. -/
structure SyncRow where
  status : String
  start_count : Option Int
  remains : Option Int
deriving DecidableEq, Repr

/-- Joined provider columns `api_url, api_key, is_active` for one order. -/
structure SyncProvider where
  is_active : Bool
deriving DecidableEq, Repr

/-- Provider `status` response as a JSON object; a count field is `none` when
absent (`undefined`) and `some .null` when present as JSON null. -/
structure StatusResp where
  error : Option JsVal := none
  status : Option String := none
  start_count : Option JsVal := none
  remains : Option JsVal := none
deriving DecidableEq, Repr

/-- Outcome of the per-order provider `status` call. -/
inductive StatusFetch where
  /-- `fetch` or `response.json()` threw; caught by the per-order `catch`. -/
  | thrown
  /-- `!response.ok` (non-2xx status). -/
  | httpErr
  /-- 2xx with the given parsed JSON body. -/
  | ok (r : StatusResp)
deriving DecidableEq, Repr

/-- One selected order with its joined provider (if any) and the outcome its
provider call would have. -/
structure SyncEntry where
  row : SyncRow
  provider : Option SyncProvider
  call : StatusFetch
deriving DecidableEq, Repr

/-- The status-mapping block (lines 100–115 of the handler): start from the
current status, and if `result.status` is truthy, lowercase it and match the
recognized names and aliases; anything else keeps the current status. -/
def mapStatus (cur : String) (status : Option String) : String :=
  match status with
  | none => cur
  | some s =>
    if s = "" then cur  -- `if (result.status)`: empty string is falsy
    else
      let e := toLowerJs s
      if e = "completed" then "completed"
      else if e = "partial" then "partial"
      else if e = "cancelled" || e = "canceled" then "cancelled"
      else if e = "in progress" || e = "inprogress" || e = "processing" then
        "processing"
      else if e = "pending" then "pending"
      else cur

/-- The `updateData` object: a field is `none` when the handler leaves it out.
A count field holds `parseInt(value, 10)`, whose inner `none` is `NaN`. -/
structure UpdateData where
  status : Option String
  start_count : Option (Option Int)
  remains : Option (Option Int)
deriving DecidableEq, Repr

/-- `Object.keys(updateData).length > 0` is false: no field was added. -/
def UpdateData.isEmpty (u : UpdateData) : Bool :=
  u.status = none && u.start_count = none && u.remains = none

/-- `result.start_count !== undefined && result.start_count !== null`. -/
def presentNonNull : Option JsVal → Bool
  | none => false
  | some v => v ≠ .null

/-- Build `updateData` from the current row and the provider response: status
only when the mapped status differs, counts whenever present and non-null. -/
def computeUpdate (o : SyncRow) (r : StatusResp) : UpdateData :=
  let newStatus := mapStatus o.status r.status
  { status := if newStatus ≠ o.status then some newStatus else none
    start_count :=
      if presentNonNull r.start_count then
        some (parseIntJs (JsVal.strOf (r.start_count.getD .null)))
      else none
    remains :=
      if presentNonNull r.remains then
        some (parseIntJs (JsVal.strOf (r.remains.getD .null)))
      else none }

/-- Apply `updateData` to the row (the database write).  A `NaN` count (inner
`none`) is modelled as writing NULL. -/
def applyUpdate (o : SyncRow) (u : UpdateData) : SyncRow :=
  { status := (u.status).getD o.status
    start_count := match u.start_count with
      | some v => v
      | none => o.start_count
    remains := match u.remains with
      | some v => v
      | none => o.remains }

/-- Per-iteration bookkeeping: which counter (if any) the iteration bumps. -/
inductive SyncDelta where
  | skipped
  | synced
  | errored
deriving DecidableEq, Repr

/-- One iteration of the sweep loop: the row after the iteration and the
counter it bumps. -/
def stepEntry (e : SyncEntry) : SyncRow × SyncDelta :=
  match e.provider with
  | none => (e.row, .skipped)  -- `if (!provider || !provider.is_active)`
  | some p =>
    if !p.is_active then (e.row, .skipped)
    else
      match e.call with
      | .thrown => (e.row, .errored)
      | .httpErr => (e.row, .errored)
      | .ok r =>
        -- `if (result.error)` — truthiness test
        if (r.error.getD .null).truthy then (e.row, .errored)
        else
          let u := computeUpdate e.row r
          if u.isEmpty then (e.row, .skipped)
          else (applyUpdate e.row u, .synced)

/-- The whole sweep: rows after the loop plus `(syncedCount, errorCount)`. -/
def syncSweep : List SyncEntry → List SyncRow × Nat × Nat
  | [] => ([], 0, 0)
  | e :: rest =>
    ((stepEntry e).1 :: (syncSweep rest).1,
      (if (stepEntry e).2 = .synced then 1 else 0) + (syncSweep rest).2.1,
      (if (stepEntry e).2 = .errored then 1 else 0) + (syncSweep rest).2.2)

/-- An entry whose provider call fails in one of the three per-order ways the
sweep counts: non-2xx, thrown transport error, or a truthy `error` body. -/
def failingEntry (e : SyncEntry) : Prop :=
  (∃ p, e.provider = some p ∧ p.is_active = true) ∧
    (e.call = .thrown ∨ e.call = .httpErr ∨
      ∃ r, e.call = .ok r ∧ (r.error.getD .null).truthy = true)

/-- An entry with an active provider and a clean response that produces a
non-empty update. -/
def updatingEntry (e : SyncEntry) : Prop :=
  (∃ p, e.provider = some p ∧ p.is_active = true) ∧
    ∃ r, e.call = .ok r ∧ (r.error.getD .null).truthy = false ∧
      (computeUpdate e.row r).isEmpty = false

instance : DecidablePred failingEntry := fun e => by
  unfold failingEntry
  cases e.provider <;> cases e.call <;> simp <;> infer_instance

instance : DecidablePred updatingEntry := fun e => by
  unfold updatingEntry
  cases e.provider <;> cases e.call <;> simp <;> infer_instance

end SyncOrderStatus

section SyncRates
/-!
Embedding of `sync-rates` (src/supabase/functions/sync-rates/index.ts): for
each active provider, fetch its catalog once, build a `Map` from
`String(ps.service)` to `parseFloat(String(ps.rate)) || 0`, then update every
locally linked service whose cached `original_rate` differs from the fetched
rate.  The services list is pre-filtered by the query to rows whose
`api_provider_id` and `api_service_id` are non-null, so those columns are
plain strings here.
-/

/-- One element of the provider's `services` catalog array; `service` and
`rate` arrive as `string | number`. -/
structure CatalogEntry where
  service : JsVal
  rate : JsVal
deriving DecidableEq, Repr

/-- `parseFloat(String(ps.rate)) || 0`: `NaN` (and `0` itself) become `0`. -/
def rateOf (v : JsVal) : ℚ :=
  (parseFloatJs (JsVal.strOf v)).getD 0

/-- JS `Map.set`: overwrite the existing binding for the key, else append. -/
def mapSet (m : List (String × ℚ)) (k : String) (v : ℚ) : List (String × ℚ) :=
  if m.any (fun p => p.1 = k) then
    m.map (fun p => if p.1 = k then (k, v) else p)
  else m ++ [(k, v)]

/-- JS `Map.get`. -/
def mapGet (m : List (String × ℚ)) (k : String) : Option ℚ :=
  (m.find? (fun p => p.1 = k)).map (fun p => p.2)

/-- `rateMap` built by `providerServices.forEach(...)`. -/
def buildRateMap (catalog : List CatalogEntry) : List (String × ℚ) :=
  catalog.foldl (fun m ps => mapSet m (JsVal.strOf ps.service) (rateOf ps.rate)) []

/-- A locally linked service row as selected by the sweep
(`id, api_provider_id, api_service_id, original_rate`). -/
structure SvcRow where
  id : String
  api_provider_id : String
  api_service_id : String
  original_rate : Option ℚ
deriving DecidableEq, Repr

/-- The write the sweep performs on one service, when any: the new
`original_rate` value keyed by the service's id. -/
def rateUpdateFor (rm : List (String × ℚ)) (s : SvcRow) : Option (String × ℚ) :=
  match mapGet rm s.api_service_id with
  | some newRate =>
    -- `newRate !== undefined && newRate !== service.original_rate`
    if s.original_rate ≠ some newRate then some (s.id, newRate) else none
  | none => none

/-- The inner `for (const service of providerLinkedServices)` loop: list of
writes in iteration order plus the count added to `totalUpdated`. -/
def rateUpdateLoop (rm : List (String × ℚ)) :
    List SvcRow → List (String × ℚ) × Nat
  | [] => ([], 0)
  | s :: rest =>
    let (ws, n) := rateUpdateLoop rm rest
    match mapGet rm s.api_service_id with
    | some newRate =>
      if s.original_rate ≠ some newRate then ((s.id, newRate) :: ws, n + 1)
      else (ws, n)
    | none => (ws, n)

/-- Outcome of one provider's catalog fetch. -/
inductive CatalogFetch where
  /-- `fetch`/`json()` threw; the per-provider `catch` continues. -/
  | thrown
  /-- `!response.ok`. -/
  | httpErr
  /-- 2xx but the JSON body is not an array. -/
  | notArray
  /-- 2xx with the given catalog array. -/
  | ok (catalog : List CatalogEntry)
deriving DecidableEq, Repr

/-- One active provider with its catalog-fetch outcome. -/
structure ProviderEntry where
  id : String
  fetch : CatalogFetch
deriving DecidableEq, Repr

/-- Process one provider: any fetch failure skips all of its services. -/
def syncProvider (services : List SvcRow) (p : ProviderEntry) :
    List (String × ℚ) × Nat :=
  match p.fetch with
  | .ok catalog =>
    rateUpdateLoop (buildRateMap catalog)
      (services.filter (fun s => s.api_provider_id = p.id))
  | _ => ([], 0)

/-- The whole sweep over active providers: all writes and `totalUpdated`. -/
def syncRates (providers : List ProviderEntry) (services : List SvcRow) :
    List (String × ℚ) × Nat :=
  providers.foldl
    (fun acc p =>
      let (ws, n) := syncProvider services p
      (acc.1 ++ ws, acc.2 + n))
    ([], 0)

end SyncRates

section ImportServices
/-!
Embedding of `importSelectedServices` (src/src/pages/admin/AdminAPIProviders.tsx,
lines 358–427): refuse when no services are selected or no target category is
chosen, otherwise build the batch of new service rows inserted in one call.
-/

/-- A fetched external service as held in the import dialog's state. -/
structure FetchedService where
  service_id : String
  name : String
  description : String
  rate : ℚ
  min : Int
  max : Int
deriving DecidableEq, Repr

/-- A row of the `services` batch insert. -/
structure NewServiceRow where
  name : String
  description : String
  original_rate : ℚ
  price_per_1000 : ℚ
  min_quantity : Int
  max_quantity : Int
  category_id : String
  api_service_id : String
  api_provider_id : String
  is_active : Bool
deriving DecidableEq, Repr

/-- The row built for one selected external service. -/
def importRow (selectedCategory : String) (currencyMultiplier priceMarkup : ℚ)
    (currentProviderId : String) (s : FetchedService) : NewServiceRow :=
  let convertedRate := s.rate * currencyMultiplier
  { name := s.name
    description := s.description
    original_rate := convertedRate
    price_per_1000 := convertedRate * (1 + priceMarkup / 100)
    min_quantity := s.min
    max_quantity := s.max
    category_id := selectedCategory
    api_service_id := s.service_id
    api_provider_id := currentProviderId
    is_active := true }

/-- `importSelectedServices`: `none` when the operation refuses (no selection,
or falsy `selectedCategory`), otherwise the inserted batch. -/
def importSelectedServices (fetchedServices : List FetchedService)
    (selectedServices : Finset String) (selectedCategory : String)
    (currencyMultiplier priceMarkup : ℚ) (currentProviderId : String) :
    Option (List NewServiceRow) :=
  if selectedServices.card = 0 then none
  else if selectedCategory = "" then none  -- `if (!selectedCategory)`
  else some
    ((fetchedServices.filter (fun s => s.service_id ∈ selectedServices)).map
      (importRow selectedCategory currencyMultiplier priceMarkup
        currentProviderId))

end ImportServices

/-! ### Theorems about `forward-order` -/

/-- C8: for every order whose service has no provider link (`api_service_id`
or `api_provider_id` null), forwarding returns `{forwarded:false}` as a 200
success, issues no provider HTTP call, and performs no order write. -/
theorem forward_unlinked_service_no_call (o : OrderRow) (sj : ServiceJoin)
    (provider : Option String) (fetch : AddFetch)
    (h : sj.api_service_id = none ∨ sj.api_provider_id = none) :
    forwardOrder o (some sj) provider fetch = ⟨false, o, 200, .skipNoApi⟩ := by
  rcases h with h | h <;> simp [forwardOrder, h, optStrTruthy]

/-- Witness for C8 at a concrete plain (unlinked) service. -/
theorem forward_unlinked_service_no_call_witness :
    forwardOrder ⟨"pending", none, "https://example.com/x", 500⟩
        (some ⟨none, none⟩) none .thrown =
      ⟨false, ⟨"pending", none, "https://example.com/x", 500⟩, 200,
        .skipNoApi⟩ :=
  forward_unlinked_service_no_call _ _ _ _ (Or.inl rfl)

/-- C9: forwarding is not idempotent — even when `external_order_id` is
already set, the handler still issues the provider call (there is no guard on
an existing id) and overwrites `external_order_id` with the freshly resolved
value. -/
theorem forward_double_submit_overwrites (o : OrderRow) (sj : ServiceJoin)
    (pv : String) (fetch : AddFetch) (r : AddResponse) (oldId ext : String)
    (hold : o.external_order_id = some oldId)
    (hsvc : optStrTruthy sj.api_service_id = true)
    (hpid : optStrTruthy sj.api_provider_id = true)
    (herr : r.error = none)
    (hres : resolveExternalOrderId r = some ext) :
    (forwardOrder o (some sj) (some pv) fetch).httpCalled = true ∧
      forwardOrder o (some sj) (some pv) (.parsed r) =
        ⟨true, { o with status := "processing", external_order_id := some ext },
          200, .forwardedOk (some ext)⟩ := by
  constructor
  · cases fetch <;>
      simp [forwardOrder, hsvc, hpid, forwardSuccess] <;>
      first
        | rfl
        | (rename_i r'
           rcases hr : r'.error with _ | e <;>
             simp [hr, forwardSuccess] <;>
             split <;> simp_all [forwardSuccess] <;>
             rcases h : resolveExternalOrderId r' with _ | x <;> simp [h])
  · simp [forwardOrder, hsvc, hpid, herr, forwardSuccess, hres]

/-- Witness for C9: an order that already carries external id "111" is
re-submitted and ends with the new id "222". -/
theorem forward_double_submit_overwrites_witness :
    forwardOrder ⟨"processing", some "111", "https://example.com/y", 1000⟩
        (some ⟨some "42", some "p1"⟩) (some "p1")
        (.parsed { order := some (.num 222) }) =
      ⟨true, ⟨"processing", some "222", "https://example.com/y", 1000⟩, 200,
        .forwardedOk (some "222")⟩ := by
  have h := forward_double_submit_overwrites
    ⟨"processing", some "111", "https://example.com/y", 1000⟩
    ⟨some "42", some "p1"⟩ "p1"
    (.parsed { order := some (.num 222) })
    { order := some (.num 222) } "111" "222"
    rfl (by decide) (by decide) rfl (by decide)
  exact h.2

/-- C10 (implicit): a parsed `add` response with no `error` field and neither
an `order` nor an `id` field is reported to the caller as a 200
`{success:true, forwarded:true, externalOrderId:null}` while the order row is
left completely unchanged. -/
theorem forward_no_id_success_no_write (o : OrderRow) (sj : ServiceJoin)
    (pv : String) (r : AddResponse)
    (hsvc : optStrTruthy sj.api_service_id = true)
    (hpid : optStrTruthy sj.api_provider_id = true)
    (herr : r.error = none) (hord : r.order = none) (hid : r.id = none) :
    forwardOrder o (some sj) (some pv) (.parsed r) =
      ⟨true, o, 200, .forwardedOk none⟩ := by
  have hres : resolveExternalOrderId r = none := by
    simp [resolveExternalOrderId, hord, hid]
  simp [forwardOrder, hsvc, hpid, herr, forwardSuccess, hres]

/-- Witness for C10 at the empty JSON object response, starting from a
pending order. -/
theorem forward_no_id_success_no_write_witness :
    forwardOrder ⟨"pending", none, "https://example.com/z", 250⟩
        (some ⟨some "42", some "p1"⟩) (some "p1") (.parsed {}) =
      ⟨true, ⟨"pending", none, "https://example.com/z", 250⟩, 200,
        .forwardedOk none⟩ :=
  forward_no_id_success_no_write _ _ _ _ (by decide) (by decide) rfl rfl rfl

/-- C1 counterexample: the `add` response `{"order": ""}` is a JSON object
containing an `order` field and no `error` field, yet the handler leaves the
order pending with a null `external_order_id` (the empty string is falsy in
`order?.toString() || id?.toString() || null`), instead of setting status
"processing" and `external_order_id` to `""`. -/
theorem forward_empty_order_id_cex :
    (forwardOrder ⟨"pending", none, "https://example.com/c", 100⟩
        (some ⟨some "42", some "p1"⟩) (some "p1")
        (.parsed { order := some (.str "") })).newOrder =
      ⟨"pending", none, "https://example.com/c", 100⟩ ∧
    (forwardOrder ⟨"pending", none, "https://example.com/c", 100⟩
        (some ⟨some "42", some "p1"⟩) (some "p1")
        (.parsed { order := some (.str "") })).newOrder.status ≠
      "processing" := by
  constructor <;> decide

/-- C1 as amended: when the parsed `add` response has no `error` field and its
`order` field (or, failing that, its `id` field) stringifies to a non-empty
string, forwarding sets status "processing" and stores that string exactly as
`external_order_id`; in particular a non-null `order` value with non-empty
string form is stored verbatim. -/
theorem forward_resolvable_id_sets_processing (o : OrderRow)
    (sj : ServiceJoin) (pv : String) (r : AddResponse) (ext : String)
    (hsvc : optStrTruthy sj.api_service_id = true)
    (hpid : optStrTruthy sj.api_provider_id = true)
    (herr : r.error = none)
    (hres : resolveExternalOrderId r = some ext) :
    forwardOrder o (some sj) (some pv) (.parsed r) =
      ⟨true, { o with status := "processing", external_order_id := some ext },
        200, .forwardedOk (some ext)⟩ ∧
    (∀ v s, r.order = some v → JsVal.toStr v = some s → s ≠ "" → ext = s) := by
  refine ⟨by simp [forwardOrder, hsvc, hpid, herr, forwardSuccess, hres], ?_⟩
  intro v s hv hs hne
  rw [resolveExternalOrderId, hv] at hres
  simp [hs, Option.filter, hne] at hres
  exact hres.symm

/-- Witness for C1 (amended), matching the spec's end-to-end scenario: a stub
provider answering `{"order": 98765}` turns a pending order into
`{status: "processing", external_order_id: "98765"}`. -/
theorem forward_resolvable_id_sets_processing_witness :
    forwardOrder ⟨"pending", none, "https://example.com/e", 1000⟩
        (some ⟨some "42", some "p1"⟩) (some "p1")
        (.parsed { order := some (.num 98765) }) =
      ⟨true, ⟨"processing", some "98765", "https://example.com/e", 1000⟩, 200,
        .forwardedOk (some "98765")⟩ := by
  have h := forward_resolvable_id_sets_processing
    ⟨"pending", none, "https://example.com/e", 1000⟩
    ⟨some "42", some "p1"⟩ "p1" { order := some (.num 98765) } "98765"
    (by decide) (by decide) rfl (by decide)
  exact h.1

/-- C2 counterexample: the `add` response `{"error": ""}` is a JSON object
containing an `error` field, yet `if (apiResponse.error)` is false for the
falsy empty string, so the handler takes the success path: the order stays
pending (it is not cancelled) and the caller gets a 200 success. -/
theorem forward_falsy_error_cex :
    forwardOrder ⟨"pending", none, "https://example.com/f", 100⟩
        (some ⟨some "42", some "p1"⟩) (some "p1")
        (.parsed { error := some (.str "") }) =
      ⟨true, ⟨"pending", none, "https://example.com/f", 100⟩, 200,
        .forwardedOk none⟩ ∧
    (forwardOrder ⟨"pending", none, "https://example.com/f", 100⟩
        (some ⟨some "42", some "p1"⟩) (some "p1")
        (.parsed { error := some (.str "") })).newOrder.status ≠
      "cancelled" := by
  constructor <;> decide

/-- C2 as amended: when the parsed `add` response carries a truthy `error`
value (e.g., a non-empty message string), the handler sets the order's status
to "cancelled", leaves `external_order_id` untouched (so still null for a
first forwarding), and answers with a handled 400 response echoing the
provider's error — not a thrown/500 hard error. -/
theorem forward_truthy_error_cancels (o : OrderRow) (sj : ServiceJoin)
    (pv : String) (r : AddResponse) (e : JsVal)
    (hsvc : optStrTruthy sj.api_service_id = true)
    (hpid : optStrTruthy sj.api_provider_id = true)
    (herr : r.error = some e) (htr : e.truthy = true)
    (hext : o.external_order_id = none) :
    forwardOrder o (some sj) (some pv) (.parsed r) =
      ⟨true, { o with status := "cancelled" }, 400, .apiError e⟩ ∧
    (forwardOrder o (some sj) (some pv) (.parsed r)).newOrder.external_order_id
      = none := by
  refine ⟨by simp [forwardOrder, hsvc, hpid, herr, htr], ?_⟩
  simp [forwardOrder, hsvc, hpid, herr, htr, hext]

/-- Witness for C2 (amended) at the provider error message "Invalid link". -/
theorem forward_truthy_error_cancels_witness :
    forwardOrder ⟨"pending", none, "https://example.com/g", 100⟩
        (some ⟨some "42", some "p1"⟩) (some "p1")
        (.parsed { error := some (.str "Invalid link") }) =
      ⟨true, ⟨"cancelled", none, "https://example.com/g", 100⟩, 400,
        .apiError (.str "Invalid link")⟩ := by
  have h := forward_truthy_error_cancels
    ⟨"pending", none, "https://example.com/g", 100⟩
    ⟨some "42", some "p1"⟩ "p1" { error := some (.str "Invalid link") }
    (.str "Invalid link") (by decide) (by decide) rfl (by decide) rfl
  exact h.1

/-! ### Theorems about `sync-order-status` -/

/-- The alias table applied to an already-lowercased status string. -/
def mapCore (cur e : String) : String :=
  if e = "completed" then "completed"
  else if e = "partial" then "partial"
  else if e = "cancelled" || e = "canceled" then "cancelled"
  else if e = "in progress" || e = "inprogress" || e = "processing" then
    "processing"
  else if e = "pending" then "pending"
  else cur

/-- `mapStatus` on a present status string is the alias table applied to its
lowercase form: the `if (result.status)` truthiness gate only short-circuits
the empty string, which matches no alias and falls through to `cur` anyway. -/
theorem mapStatus_eq_mapCore (cur s : String) :
    mapStatus cur (some s) = mapCore cur (toLowerJs s) := by
  by_cases hs : s = ""
  · subst hs; rfl
  · simp [mapStatus, mapCore, hs]

/-- The recognized lowercase status names and aliases. -/
def recognizedStatuses : List String :=
  ["completed", "partial", "cancelled", "canceled", "in progress",
   "inprogress", "processing", "pending"]

/-- C3: the reconciler's status mapping is case-insensitive (it depends only
on the lowercased input), maps each recognized name and alias to the
corresponding local status, and leaves the local status unchanged on any
string whose lowercase form is unrecognized. -/
theorem sync_status_mapping (cur : String) :
    (∀ s t : String, toLowerJs s = toLowerJs t →
      mapStatus cur (some s) = mapStatus cur (some t)) ∧
    (∀ s : String, toLowerJs s = "completed" →
      mapStatus cur (some s) = "completed") ∧
    (∀ s : String, toLowerJs s = "partial" →
      mapStatus cur (some s) = "partial") ∧
    (∀ s : String, toLowerJs s = "cancelled" ∨ toLowerJs s = "canceled" →
      mapStatus cur (some s) = "cancelled") ∧
    (∀ s : String, toLowerJs s = "in progress" ∨ toLowerJs s = "inprogress" ∨
        toLowerJs s = "processing" →
      mapStatus cur (some s) = "processing") ∧
    (∀ s : String, toLowerJs s = "pending" →
      mapStatus cur (some s) = "pending") ∧
    (∀ s : String, toLowerJs s ∉ recognizedStatuses →
      mapStatus cur (some s) = cur) := by
  refine ⟨?_, ?_, ?_, ?_, ?_, ?_, ?_⟩
  · intro s t h
    rw [mapStatus_eq_mapCore, mapStatus_eq_mapCore, h]
  · intro s h; rw [mapStatus_eq_mapCore, h]; rfl
  · intro s h; rw [mapStatus_eq_mapCore, h]; rfl
  · intro s h
    rcases h with h | h <;> rw [mapStatus_eq_mapCore, h] <;> rfl
  · intro s h
    rcases h with h | h | h <;> rw [mapStatus_eq_mapCore, h] <;> rfl
  · intro s h; rw [mapStatus_eq_mapCore, h]; rfl
  · intro s h
    rw [mapStatus_eq_mapCore]
    simp only [recognizedStatuses, List.mem_cons, List.not_mem_nil, or_false,
      not_or] at h
    obtain ⟨h1, h2, h3, h4, h5, h6, h7, h8⟩ := h
    simp [mapCore, h1, h2, h3, h4, h5, h6, h7, h8]

/-- Witness for C3: "Completed" and "COMPLETED" (case-insensitivity), the
"canceled" alias, and the unrecognized input "Refunded". -/
theorem sync_status_mapping_witness :
    mapStatus "processing" (some "Completed") =
        mapStatus "processing" (some "COMPLETED") ∧
    mapStatus "processing" (some "Completed") = "completed" ∧
    mapStatus "processing" (some "canceled") = "cancelled" ∧
    mapStatus "processing" (some "Refunded") = "processing" := by
  refine ⟨?_, ?_, ?_, ?_⟩
  · exact (sync_status_mapping "processing").1 "Completed" "COMPLETED"
      (by decide)
  · exact (sync_status_mapping "processing").2.1 "Completed" (by decide)
  · exact (sync_status_mapping "processing").2.2.2.1 "canceled"
      (Or.inr (by decide))
  · exact (sync_status_mapping "processing").2.2.2.2.2.2 "Refunded"
      (by decide)

/-- A failing entry bumps `errorCount` and leaves its row untouched. -/
theorem stepEntry_of_failing (e : SyncEntry) (h : failingEntry e) :
    stepEntry e = (e.row, .errored) := by
  obtain ⟨⟨p, hp, hact⟩, hfail⟩ := h
  rcases hfail with hc | hc | ⟨r, hc, herr⟩ <;>
    simp [stepEntry, hp, hact, hc] <;> simp [herr]

/-- An updating entry bumps `syncedCount`. -/
theorem stepEntry_of_updating (e : SyncEntry) (h : updatingEntry e) :
    (stepEntry e).2 = .synced := by
  obtain ⟨⟨p, hp, hact⟩, r, hc, herr, hupd⟩ := h
  simp [stepEntry, hp, hact, hc, herr, hupd]

/-- A sweep over updating entries updates every row and reports no errors. -/
theorem syncSweep_all_updating (l : List SyncEntry)
    (h : ∀ e ∈ l, updatingEntry e) :
    syncSweep l = (l.map (fun e => (stepEntry e).1), l.length, 0) := by
  induction l with
  | nil => rfl
  | cons e rest ih =>
    have he := stepEntry_of_updating e (h e (List.mem_cons_self e rest))
    have hrest := ih (fun x hx => h x (List.mem_cons_of_mem e hx))
    simp [syncSweep, he, hrest, Nat.add_comm]

/-- The sweep distributes over list concatenation (iterations are
independent; the counters just add up). -/
theorem syncSweep_append (l₁ l₂ : List SyncEntry) :
    syncSweep (l₁ ++ l₂) =
      ((syncSweep l₁).1 ++ (syncSweep l₂).1,
        (syncSweep l₁).2.1 + (syncSweep l₂).2.1,
        (syncSweep l₁).2.2 + (syncSweep l₂).2.2) := by
  induction l₁ with
  | nil => simp [syncSweep]
  | cons e rest ih => simp [syncSweep, ih, Nat.add_assoc]

/-- C4: a sweep in which exactly one order's provider call fails (non-2xx,
thrown transport error, or an error body) and every other order gets a clean
response producing an update still updates all the other rows, reports
exactly one error, and counts every other order as synced. -/
theorem sync_sweep_isolates_failure (pre post : List SyncEntry)
    (bad : SyncEntry) (hbad : failingEntry bad)
    (hgood : ∀ e ∈ pre ++ post, updatingEntry e) :
    syncSweep (pre ++ bad :: post) =
      (pre.map (fun e => (stepEntry e).1) ++
          bad.row :: post.map (fun e => (stepEntry e).1),
        pre.length + post.length, 1) := by
  have hpre : ∀ e ∈ pre, updatingEntry e :=
    fun e he => hgood e (List.mem_append_left _ he)
  have hpost : ∀ e ∈ post, updatingEntry e :=
    fun e he => hgood e (List.mem_append_right _ he)
  rw [syncSweep_append, syncSweep_all_updating pre hpre]
  have hbadstep := stepEntry_of_failing bad hbad
  simp [syncSweep, hbadstep, syncSweep_all_updating post hpost]

/-- Witness for C4: three orders, the middle one's provider answering with a
non-2xx status; the other two are updated ("Completed" and "Partial") and
the summary is `synced = 2, errors = 1`. -/
theorem sync_sweep_isolates_failure_witness :
    syncSweep
      [⟨⟨"processing", none, none⟩, some ⟨true⟩,
          .ok { status := some "Completed" }⟩,
        ⟨⟨"processing", none, none⟩, some ⟨true⟩, .httpErr⟩,
        ⟨⟨"pending", none, none⟩, some ⟨true⟩,
          .ok { status := some "Partial", remains := some (.str "40") }⟩] =
      ([⟨"completed", none, none⟩, ⟨"processing", none, none⟩,
          ⟨"partial", none, some 40⟩], 2, 1) := by
  have h := sync_sweep_isolates_failure
    [⟨⟨"processing", none, none⟩, some ⟨true⟩,
        .ok { status := some "Completed" }⟩]
    [⟨⟨"pending", none, none⟩, some ⟨true⟩,
        .ok { status := some "Partial", remains := some (.str "40") }⟩]
    ⟨⟨"processing", none, none⟩, some ⟨true⟩, .httpErr⟩
    (by constructor
        · exact ⟨⟨true⟩, rfl, rfl⟩
        · exact Or.inr (Or.inl rfl))
    (by intro e he
        simp only [List.cons_append, List.nil_append, List.mem_cons,
          List.not_mem_nil, or_false] at he
        rcases he with he | he <;> subst he <;>
          exact ⟨⟨⟨true⟩, rfl, rfl⟩, _, rfl, by decide, by decide⟩)
  simpa using h

/-- C5: the write set of one reconciled order is exactly `status` (only when
the mapped status differs from the current one) plus `start_count` and
`remains` (whenever present and non-null in the response, even when the
status is unchanged); when the mapped status equals the current status and no
count field is present, no database write happens and the row is untouched. -/
theorem sync_order_write_frame (e : SyncEntry) (p : SyncProvider)
    (r : StatusResp) (hp : e.provider = some p) (hact : p.is_active = true)
    (hc : e.call = .ok r) (herr : (r.error.getD .null).truthy = false) :
    ((mapStatus e.row.status r.status = e.row.status ∧
        presentNonNull r.start_count = false ∧
        presentNonNull r.remains = false) →
      stepEntry e = (e.row, .skipped)) ∧
    (presentNonNull r.start_count = true →
      (stepEntry e).2 = .synced ∧
        (stepEntry e).1.start_count =
          parseIntJs (JsVal.strOf (r.start_count.getD .null))) ∧
    (presentNonNull r.remains = true →
      (stepEntry e).2 = .synced ∧
        (stepEntry e).1.remains =
          parseIntJs (JsVal.strOf (r.remains.getD .null))) ∧
    ((stepEntry e).1.status = mapStatus e.row.status r.status) ∧
    (presentNonNull r.start_count = false →
      (stepEntry e).1.start_count = e.row.start_count) ∧
    (presentNonNull r.remains = false →
      (stepEntry e).1.remains = e.row.remains) := by
  by_cases hsc : presentNonNull r.start_count <;>
    by_cases hrm : presentNonNull r.remains <;>
    by_cases hst : mapStatus e.row.status r.status = e.row.status <;>
    simp [stepEntry, hp, hact, hc, herr, computeUpdate, UpdateData.isEmpty,
      applyUpdate, hsc, hrm, hst]

/-- Witness for C5, matching the spec's reconciliation scenario: a processing
order with null `remains` receiving `{"status":"Partial","remains":"40"}` is
written as `{status:"partial", remains:40}` (a synced update), with
`start_count` left alone. -/
theorem sync_order_write_frame_witness :
    (stepEntry ⟨⟨"processing", none, none⟩, some ⟨true⟩,
        .ok { status := some "Partial", remains := some (.str "40") }⟩).2 =
      .synced ∧
    (stepEntry ⟨⟨"processing", none, none⟩, some ⟨true⟩,
        .ok { status := some "Partial", remains := some (.str "40") }⟩).1 =
      ⟨"partial", none, some 40⟩ := by
  have h := sync_order_write_frame
    ⟨⟨"processing", none, none⟩, some ⟨true⟩,
      .ok { status := some "Partial", remains := some (.str "40") }⟩
    ⟨true⟩ { status := some "Partial", remains := some (.str "40") }
    rfl rfl rfl (by decide)
  exact ⟨(h.2.2.1 (by decide)).1, by decide⟩

/-! ### Theorems about `sync-rates` -/

/-- The per-provider update loop is the per-service write decision mapped
over the provider's linked services, and `totalUpdated` counts the writes. -/
theorem rateUpdateLoop_eq_filterMap (rm : List (String × ℚ))
    (l : List SvcRow) :
    rateUpdateLoop rm l =
      (l.filterMap (rateUpdateFor rm), (l.filterMap (rateUpdateFor rm)).length) := by
  induction l with
  | nil => rfl
  | cons s rest ih =>
    simp only [rateUpdateLoop, ih, List.filterMap_cons, rateUpdateFor]
    rcases h : mapGet rm s.api_service_id with _ | q
    · rfl
    · by_cases hr : s.original_rate = some q <;> simp [hr]

/-- C6: rate synchronization is idempotent per service.  For a provider whose
catalog fetch succeeded, the sweep's writes are exactly the per-service
decisions: a linked service whose freshly fetched rate equals its cached
`original_rate` produces no write; a service whose fetched rate exists in the
catalog and differs is written with exactly that rate; a service absent from
the catalog is never written. -/
theorem sync_rates_idempotent (services : List SvcRow) (p : ProviderEntry)
    (catalog : List CatalogEntry) (hfetch : p.fetch = .ok catalog) :
    (syncProvider services p =
      ((services.filter (fun s => s.api_provider_id = p.id)).filterMap
          (rateUpdateFor (buildRateMap catalog)),
        ((services.filter (fun s => s.api_provider_id = p.id)).filterMap
          (rateUpdateFor (buildRateMap catalog))).length)) ∧
    (∀ s : SvcRow, ∀ q : ℚ,
      mapGet (buildRateMap catalog) s.api_service_id = some q →
      s.original_rate = some q →
      rateUpdateFor (buildRateMap catalog) s = none) ∧
    (∀ s : SvcRow, ∀ q : ℚ,
      mapGet (buildRateMap catalog) s.api_service_id = some q →
      s.original_rate ≠ some q →
      rateUpdateFor (buildRateMap catalog) s = some (s.id, q)) ∧
    (∀ s : SvcRow, mapGet (buildRateMap catalog) s.api_service_id = none →
      rateUpdateFor (buildRateMap catalog) s = none) := by
  refine ⟨?_, ?_, ?_, ?_⟩
  · simp [syncProvider, hfetch, rateUpdateLoop_eq_filterMap]
  · intro s q hq hsame; simp [rateUpdateFor, hq, hsame]
  · intro s q hq hdiff; simp [rateUpdateFor, hq, hdiff]
  · intro s hq; simp [rateUpdateFor, hq]

/-- Witness for C6: a provider catalog listing service 7 at rate 0.5; a
linked service cached at 0.5 is not written, and the whole provider produces
zero writes (the other linked service listed at the same cached rate too). -/
theorem sync_rates_idempotent_witness :
    syncProvider
        [⟨"s1", "p1", "7", some (1/2)⟩, ⟨"s2", "other", "7", some 9⟩]
        ⟨"p1", .ok [⟨.num 7, .str "0.5"⟩]⟩ = ([], 0) ∧
    rateUpdateFor (buildRateMap [⟨.num 7, .str "0.5"⟩])
        ⟨"s1", "p1", "7", some (1/2)⟩ = none := by
  have h := sync_rates_idempotent
    [⟨"s1", "p1", "7", some (1/2)⟩, ⟨"s2", "other", "7", some 9⟩]
    ⟨"p1", .ok [⟨.num 7, .str "0.5"⟩]⟩ [⟨.num 7, .str "0.5"⟩] rfl
  have hq : mapGet (buildRateMap [⟨.num 7, .str "0.5"⟩]) "7" =
      some (1 / 2) := by
    rw [show mapGet (buildRateMap [⟨.num 7, .str "0.5"⟩]) "7" =
        some (1 * ((0 : ℚ) + 5 / 10 ^ 1)) from rfl]
    norm_num
  have hnone := h.2.1 ⟨"s1", "p1", "7", some (1/2)⟩ (1/2) hq rfl
  refine ⟨?_, hnone⟩
  rw [h.1]
  show (List.filterMap (rateUpdateFor (buildRateMap [⟨.num 7, .str "0.5"⟩]))
      [⟨"s1", "p1", "7", some (1/2)⟩],
    (List.filterMap (rateUpdateFor (buildRateMap [⟨.num 7, .str "0.5"⟩]))
      [⟨"s1", "p1", "7", some (1/2)⟩]).length) = ([], 0)
  rw [List.filterMap_cons, hnone]
  rfl

/-! ### Theorems about `importSelectedServices` -/

/-- C7: the import refuses (inserts nothing) when no services are selected or
no target category is chosen; otherwise the inserted batch consists of
exactly one row per selected fetched service, carrying
`original_rate = rate × multiplier`,
`price_per_1000 = original_rate × (1 + markup/100)` and the provider linkage
fields. -/
theorem import_selected_services_spec (fetched : List FetchedService)
    (sel : Finset String) (cat : String) (mult markup : ℚ) (pid : String) :
    (sel = ∅ ∨ cat = "" →
      importSelectedServices fetched sel cat mult markup pid = none) ∧
    (∀ rows, importSelectedServices fetched sel cat mult markup pid =
        some rows →
      (∀ r ∈ rows, ∃ s ∈ fetched, s.service_id ∈ sel ∧
        r = importRow cat mult markup pid s ∧
        r.original_rate = s.rate * mult ∧
        r.price_per_1000 = r.original_rate * (1 + markup / 100) ∧
        r.api_service_id = s.service_id ∧ r.api_provider_id = pid) ∧
      (∀ s ∈ fetched, s.service_id ∈ sel →
        importRow cat mult markup pid s ∈ rows)) := by
  constructor
  · rintro (h | h) <;> simp [importSelectedServices, h]
  · intro rows hrows
    have hsel : sel.card ≠ 0 := by
      intro h; simp [importSelectedServices, h] at hrows
    have hcat : cat ≠ "" := by
      intro h; simp [importSelectedServices, hsel, h] at hrows
    rw [importSelectedServices, if_neg hsel, if_neg hcat] at hrows
    obtain rfl : rows = _ := (Option.some_inj.mp hrows).symm
    constructor
    · intro r hr
      obtain ⟨s, hs, rfl⟩ := List.mem_map.mp hr
      obtain ⟨hsf, hssel⟩ := List.mem_filter.mp hs
      refine ⟨s, hsf, by simpa using hssel, rfl, rfl, rfl, rfl, rfl⟩
    · intro s hsf hssel
      exact List.mem_map_of_mem _
        (List.mem_filter.mpr ⟨hsf, by simpa using hssel⟩)

/-- Witness for C7: an empty selection refuses to insert, and with service 7
selected into category "cat1" at multiplier 2 and markup 20% the single
inserted row has `original_rate = 3` and `price_per_1000 = 3.6`. -/
theorem import_selected_services_spec_witness :
    importSelectedServices [⟨"7", "Views", "d", (3/2), 100, 10000⟩] ∅ "cat1"
        2 20 "p1" = none ∧
    importRow "cat1" 2 20 "p1" ⟨"7", "Views", "d", (3/2), 100, 10000⟩ ∈
      [importRow "cat1" 2 20 "p1" ⟨"7", "Views", "d", (3/2), 100, 10000⟩] := by
  constructor
  · exact (import_selected_services_spec
      [⟨"7", "Views", "d", (3/2), 100, 10000⟩] ∅ "cat1" 2 20 "p1").1
      (Or.inl rfl)
  · exact ((import_selected_services_spec
      [⟨"7", "Views", "d", (3/2), 100, 10000⟩] {"7"} "cat1" 2 20 "p1").2
      _ rfl).2 _ (List.mem_singleton_self _) (by decide)
